import Mathlib

/-!
Shallow embedding of the sales-call backend (`src/main.py`) for verification.

The process-wide mutable state of `main.py` (the dicts `STORE`, `STORE_USERS`,
`ROOM_TO_USER`, `ANALYSIS_STORE` and the two MongoDB collections
`messages_collection`, `sessions_collection`) is modelled as an explicit
`AppState` record; every endpoint handler becomes a pure function from the
state (plus the request payload and the outcomes of the external calls) to a
result and a new state.

External effects are parameters:
* the Groq LLM call is an oracle value (`GroqResult` / `ConvResult`): either a
  failure (covering call failures, JSON decode errors and post-processing
  exceptions) or a parsed JSON object with optional fields, mirroring the
  `parsed.get(...)` accesses of the source;
* MongoDB write/read failures (`PyMongoError`) are a `mongoFail : Bool` flag;
* wall-clock strings (`datetime.now(...).isoformat()`) are passed in.

Python `dict`s are association lists with in-place-update insertion
(`dictInsert`), which preserves Python's key-insertion iteration order.
Python's stable `list.sort` and Mongo's sort are a stable insertion sort
(`isortLe`).  Python floats used as timestamps/confidences are `ℚ` (only
order and `max` matter to the code).  Python string slicing `s[:n]` is
`strTake` (by code point, as in Python).
-/

/-- Python truthiness of an optional string (`None` and `""` are falsy). -/
def truthy : Option String → Bool
  | none => false
  | some s => s != ""

/-- Python `s[:n]` (slice of the first `n` code points). -/
def strTake (s : String) (n : Nat) : String :=
  String.mk (s.toList.take n)

/-- Python `s.strip()`: drop whitespace from both ends. -/
def pyStrip (s : String) : String :=
  String.mk (((s.toList.dropWhile Char.isWhitespace).reverse.dropWhile
    Char.isWhitespace).reverse)

/-- `starlette.exceptions.HTTPException.__str__`, used by the
`raise HTTPException(500, str(e))` pattern in `main.py`. -/
def httpExceptionText (status : Nat) (detail : String) : String :=
  toString status ++ ": " ++ detail

/-- Lookup in a Python dict modelled as an association list
(`d.get(k)` / `d[k]`). -/
def dictGet {α : Type} (k : String) : List (String × α) → Option α
  | [] => none
  | (k', v) :: rest => if k' = k then some v else dictGet k rest

/-- Python `k in d`. -/
def hasKey {α : Type} (k : String) (d : List (String × α)) : Bool :=
  (dictGet k d).isSome

/-- Python `d[k] = v`: replace the value in place if the key exists
(keeping its position, as CPython does), else append. -/
def dictInsert {α : Type} (k : String) (v : α) : List (String × α) → List (String × α)
  | [] => [(k, v)]
  | (k', v') :: rest =>
      if k' = k then (k, v) :: rest else (k', v') :: dictInsert k v rest

/-- Stable insertion into a list sorted by `le` (ties keep the inserted
element first, matching a stable ascending sort). -/
def insertLe {α : Type} (le : α → α → Bool) (m : α) : List α → List α
  | [] => [m]
  | x :: xs => if le m x then m :: x :: xs else x :: insertLe le m xs

/-- Stable sort by `le` (models Python's `list.sort(key=...)` and Mongo's
single-key sort). -/
def isortLe {α : Type} (le : α → α → Bool) : List α → List α
  | [] => []
  | x :: xs => insertLe le x (isortLe le xs)

/-- The two speaker values of `TranscriptIn.speaker`
(`Literal["user", "assistant"]`). -/
inductive Speaker where
  | user
  | assistant
deriving DecidableEq, Repr

/-- One stored utterance: the `record` dict built in `process_transcription`
(also the row shape of `messages_collection`). -/
structure Message where
  text : String
  speaker : Speaker
  sent_ts : ℚ
  received_at : String
  room_id : String
deriving DecidableEq, Repr

/-- The `SentimentAnalysis` pydantic model / the analysis dicts produced by
`analyze_with_groq` and `analyze_full_conversation`. -/
structure SentimentAnalysis where
  sentiment : String
  confidence : ℚ
  key_points : List String
  recommendation_to_salesperson : String
deriving DecidableEq, Repr

/-- A durable session document in `sessions_collection`.  The Mongo
`ObjectId` is modelled as a `Nat` issued by a counter in the state.
`user_email` is optional: documents finalized without a user identity
(legacy data) lack the field. -/
structure SessionDoc where
  _id : Nat
  session_id : String
  messages : List Message
  total_messages : Nat
  latest_analysis : Option SentimentAnalysis
  timestamp : String
  user_email : Option String
deriving DecidableEq, Repr

/-- The process-wide state of `main.py`. -/
structure AppState where
  STORE : List (String × List Message)
  STORE_USERS : List (String × String)
  ROOM_TO_USER : List (String × String)
  ANALYSIS_STORE : List (String × SentimentAnalysis)
  messages_collection : List Message
  sessions_collection : List SessionDoc
  next_id : Nat
deriving DecidableEq, Repr

/-- The state at process start: all dicts and collections empty. -/
def emptyState : AppState := ⟨[], [], [], [], [], [], 0⟩

/-- The JSON object parsed from the per-utterance Groq reply, with the
optional fields read by `parsed.get(...)` in `analyze_with_groq`. -/
structure GroqParsed where
  sentiment : Option String
  confidence : Option ℚ
  key_points : Option (List String)
  recommendation_to_salesperson : Option String
deriving DecidableEq, Repr

/-- Outcome of the external per-utterance LLM call: `failure` covers the
whole `except Exception` arm of `analyze_with_groq` (call failure, JSON
decode error, or a post-processing exception). -/
inductive GroqResult where
  | failure
  | ok (p : GroqParsed)
deriving DecidableEq, Repr

/-- `analyze_with_groq` (src/main.py lines 315-366), with the LLM call
abstracted to its outcome. -/
def analyze_with_groq : GroqResult → SentimentAnalysis
  | .failure =>
      { sentiment := "neutral", confidence := 0, key_points := [],
        recommendation_to_salesperson := "Unable to analyze." }
  | .ok p =>
      { sentiment := (p.sentiment.getD "neutral").toLower,
        confidence := p.confidence.getD 0,
        key_points := p.key_points.getD [],
        recommendation_to_salesperson :=
          p.recommendation_to_salesperson.getD "Continue the conversation normally." }

/-- The JSON object parsed from the whole-conversation Groq reply
(`analyze_full_conversation`). -/
structure ConvParsed where
  sentiment : Option String
  confidence : Option ℚ
  key_points : Option (List String)
  customer_interests : Option (List String)
  customer_concerns : Option (List String)
  recommendation_to_salesperson : Option String
deriving DecidableEq, Repr

/-- Outcome of the external whole-conversation LLM call.  `jsonFailure` is
the `except json.JSONDecodeError` arm; `callFailure` is the generic
`except Exception` arm (call failure or a post-parse exception). -/
inductive ConvResult where
  | callFailure
  | jsonFailure
  | ok (p : ConvParsed)
deriving DecidableEq, Repr

/-- The concatenation `key_points + customer_interests + customer_concerns`
built in the success arm of `analyze_full_conversation`. -/
def concatKeyPoints (p : ConvParsed) : List String :=
  p.key_points.getD [] ++ p.customer_interests.getD [] ++ p.customer_concerns.getD []

/-- `analyze_full_conversation` (src/main.py lines 368-494), with the LLM
call abstracted to its outcome.  The prompt text (including the 3000-char
truncation) only feeds the external model and so does not appear in the
result, which depends on `messages` and the oracle outcome exactly as the
post-processing of the source does. -/
def analyze_full_conversation (messages : List Message) (res : ConvResult) :
    SentimentAnalysis :=
  if messages.isEmpty then
    { sentiment := "neutral", confidence := 1/2,
      key_points := ["No conversation data"],
      recommendation_to_salesperson := "No messages to analyze." }
  else
    match res with
    | .ok p =>
        let all_key_points := concatKeyPoints p
        let all_key_points :=
          if all_key_points.isEmpty then
            let user_messages := messages.filter (fun m => m.speaker == .user)
            if !user_messages.isEmpty then
              (user_messages.take 3).map
                (fun m => "Customer message: " ++ strTake m.text 80)
            else ["Conversation completed"]
          else all_key_points
        { sentiment := (p.sentiment.getD "neutral").toLower,
          confidence := max (p.confidence.getD (3/5)) (1/2),
          key_points := all_key_points.take 7,
          recommendation_to_salesperson :=
            p.recommendation_to_salesperson.getD
              "Follow up based on customer interests expressed in the conversation." }
    | .jsonFailure =>
        let user_messages := messages.filter (fun m => m.speaker == .user)
        { sentiment := "neutral", confidence := 1/2,
          key_points :=
            if !user_messages.isEmpty then
              (user_messages.take 5).map (fun m => strTake m.text 100)
            else ["Customer engaged in conversation"],
          recommendation_to_salesperson :=
            "Review full transcript for context and follow up appropriately." }
    | .callFailure =>
        let user_messages := messages.filter (fun m => m.speaker == .user)
        { sentiment := "neutral", confidence := 1/2,
          key_points :=
            ["Conversation had " ++ toString messages.length ++ " total messages",
             "Customer spoke " ++ toString user_messages.length ++ " times",
             "See transcript for details"],
          recommendation_to_salesperson :=
            "Review the conversation transcript and follow up based on customer\x27s responses." }

/-- The `TranscriptIn` pydantic model (`min_length=1` on `text` is enforced
by the framework before the handler runs, see
`process_transcription_endpoint`). -/
structure TranscriptIn where
  text : String
  speaker : Speaker
  timestamp : ℚ
  room_id : String
  user_email : Option String
deriving DecidableEq, Repr

/-- The `TranscriptResponse` pydantic model. -/
structure TranscriptResponse where
  ok : Bool
  room_id : String
  count_in_room : Nat
  analysis : Option SentimentAnalysis
  latest_user_message : Option String
deriving DecidableEq, Repr

/-- An HTTP handler result: a value or an `HTTPException(status, detail)`. -/
inductive HResult (α : Type) where
  | ok (a : α)
  | httpError (status : Nat) (detail : String)
deriving DecidableEq, Repr

/-- Line 551 of `process_transcription`:
`payload.user_email or ROOM_TO_USER.get(payload.room_id)` (Python `or`
falls through on `None` and on the empty string). -/
def resolveUser (st : AppState) (payload : TranscriptIn) : Option String :=
  if truthy payload.user_email then payload.user_email
  else dictGet payload.room_id st.ROOM_TO_USER

/-- `process_transcription` (src/main.py lines 548-601).

The whole handler body sits in a `try` whose only handler is
`except Exception as e: raise HTTPException(500, str(e))`; since FastAPI's
`HTTPException` is an `Exception`, the handler's own
`raise HTTPException(422, "Empty message")` is caught there and resurfaces
as status 500 with detail `str(e) = "422: Empty message"`.

`mongoFail` is the outcome of the best-effort
`messages_collection.insert_one` (a `PyMongoError` is logged and
swallowed). -/
def process_transcription (st : AppState) (payload : TranscriptIn)
    (received_at : String) (groq : GroqResult) (mongoFail : Bool) :
    HResult TranscriptResponse × AppState :=
  let user_email := resolveUser st payload
  let st :=
    if truthy user_email && !(hasKey payload.room_id st.STORE_USERS) then
      { st with STORE_USERS :=
          dictInsert payload.room_id (user_email.getD "") st.STORE_USERS }
    else st
  let text_clean := pyStrip payload.text
  if text_clean = "" then
    (.httpError 500 (httpExceptionText 422 "Empty message"), st)
  else
    let record : Message :=
      { text := text_clean, speaker := payload.speaker,
        sent_ts := payload.timestamp, received_at := received_at,
        room_id := payload.room_id }
    let newStore :=
      dictInsert payload.room_id
        ((dictGet payload.room_id st.STORE).getD [] ++ [record]) st.STORE
    let st := { st with STORE := newStore }
    let st :=
      if mongoFail then st
      else { st with messages_collection := st.messages_collection ++ [record] }
    match payload.speaker with
    | .user =>
        let analysis_dict := analyze_with_groq groq
        let newAnalyses := dictInsert payload.room_id analysis_dict st.ANALYSIS_STORE
        let st := { st with ANALYSIS_STORE := newAnalyses }
        (.ok { ok := true, room_id := payload.room_id,
               count_in_room := ((dictGet payload.room_id st.STORE).getD []).length,
               analysis := some analysis_dict,
               latest_user_message := some text_clean }, st)
    | .assistant =>
        (.ok { ok := true, room_id := payload.room_id,
               count_in_room := ((dictGet payload.room_id st.STORE).getD []).length,
               analysis := none,
               latest_user_message := none }, st)

/-- Pydantic's error detail for `text: str = Field(..., min_length=1)`. -/
def pydanticMinLengthDetail : String := "String should have at least 1 character"

/-- The `POST /process-transcription` endpoint: pydantic validates
`min_length=1` on `text` (a true 422, the handler never runs), then the
handler body executes. -/
def process_transcription_endpoint (st : AppState) (payload : TranscriptIn)
    (received_at : String) (groq : GroqResult) (mongoFail : Bool) :
    HResult TranscriptResponse × AppState :=
  if payload.text = "" then (.httpError 422 pydanticMinLengthDetail, st)
  else process_transcription st payload received_at groq mongoFail

/-- The `TokenRequest` pydantic model (the second definition in the source,
which shadows the first and adds `user_email`). -/
structure TokenRequest where
  room_name : String
  participant_name : String
  user_email : Option String
deriving DecidableEq, Repr

/-- The state effect of `get_token` (src/main.py lines 506-541): record the
room-creation mapping `ROOM_TO_USER[room_name] = user_email` when a truthy
user email is supplied.  The LiveKit token built afterwards is external and
does not touch the state. -/
def get_token (st : AppState) (request : TokenRequest) : AppState :=
  if truthy request.user_email then
    { st with ROOM_TO_USER :=
        dictInsert request.room_name (request.user_email.getD "") st.ROOM_TO_USER }
  else st

/-- Response shape of `GET /messages/{room_id}`. -/
structure MessagesResponse where
  room_id : String
  messages : List Message
deriving DecidableEq, Repr

/-- Python `l[-n:]` for `n ≥ 1`: the last `n` elements. -/
def lastN {α : Type} (n : Nat) (l : List α) : List α :=
  l.drop (l.length - n)

/-- `get_messages` (src/main.py lines 628-654).  `limit` is constrained to
`1 ≤ limit ≤ 500` by `Query(50, ge=1, le=500)`.  `mongoFail` is the
`PyMongoError` arm of the supplement query (logged, messages left as the
in-memory list). -/
def get_messages (st : AppState) (room_id : String) (limit : Nat)
    (mongoFail : Bool) : MessagesResponse :=
  let messages := (dictGet room_id st.STORE).getD []
  let messages :=
    if messages.length < limit then
      if mongoFail then messages
      else
        let mongo_messages :=
          (isortLe (fun a b => b.sent_ts ≤ a.sent_ts)
            (st.messages_collection.filter (fun m => m.room_id == room_id))).take limit
        let all_messages := messages ++ mongo_messages
        let all_messages := isortLe (fun a b => a.sent_ts ≤ b.sent_ts) all_messages
        if all_messages.length > limit then lastN limit all_messages else all_messages
    else messages
  { room_id := room_id, messages := lastN limit messages }

/-- The `SaveSessionResponse` pydantic model. -/
structure SaveSessionResponse where
  ok : Bool
  room_id : String
  mongo_id : Option String
  total_messages : Nat
deriving DecidableEq, Repr

/-- The `session_update` dict built in `save_session`; `user_email` is
present only when the query parameter was supplied (and truthy). -/
structure SessionUpdateData where
  messages : List Message
  total_messages : Nat
  latest_analysis : SentimentAnalysis
  timestamp : String
  user_email : Option String
deriving DecidableEq, Repr

/-- Mongo `update_one({...}, {"$set": session_update})` applied to one
document: the listed fields are replaced; `user_email` is written only when
present in the update, and an absent update key leaves the stored field
untouched. -/
def applySet (upd : SessionUpdateData) (d : SessionDoc) : SessionDoc :=
  { d with
    messages := upd.messages,
    total_messages := upd.total_messages,
    latest_analysis := some upd.latest_analysis,
    timestamp := upd.timestamp,
    user_email :=
      match upd.user_email with
      | some e => some e
      | none => d.user_email }

/-- Mongo `update_one`: update the first matching document. -/
def updateFirst (p : SessionDoc → Bool) (f : SessionDoc → SessionDoc) :
    List SessionDoc → List SessionDoc
  | [] => []
  | d :: ds => if p d then f d :: ds else d :: updateFirst p f ds

/-- Mongo `sessions_collection.find_one({"session_id": sid})`. -/
def findSession (st : AppState) (sid : String) : Option SessionDoc :=
  st.sessions_collection.find? (fun d => d.session_id == sid)

/-- `save_session` (src/main.py lines 659-721), with the whole-conversation
LLM call abstracted to its outcome `conv` and the wall clock to `now`. -/
def save_session (st : AppState) (room_id : String) (user_email : Option String)
    (conv : ConvResult) (now : String) :
    HResult SaveSessionResponse × AppState :=
  if !(hasKey room_id st.STORE) then
    match findSession st room_id with
    | some existing =>
        (.ok { ok := true, room_id := room_id,
               mongo_id := some (toString existing._id),
               total_messages := existing.total_messages }, st)
    | none => (.httpError 404 "Room not found in memory or database", st)
  else
    let messages := (dictGet room_id st.STORE).getD []
    let existing_session := findSession st room_id
    let full_analysis := analyze_full_conversation messages conv
    let upd : SessionUpdateData :=
      { messages := messages, total_messages := messages.length,
        latest_analysis := full_analysis, timestamp := now,
        user_email := if truthy user_email then user_email else none }
    match existing_session with
    | some e =>
        let newSessions :=
          updateFirst (fun d => d.session_id == room_id) (applySet upd)
            st.sessions_collection
        let st := { st with sessions_collection := newSessions }
        (.ok { ok := true, room_id := room_id,
               mongo_id := some (toString e._id),
               total_messages := messages.length }, st)
    | none =>
        let doc : SessionDoc :=
          { _id := st.next_id, session_id := room_id,
            messages := upd.messages, total_messages := upd.total_messages,
            latest_analysis := some upd.latest_analysis,
            timestamp := upd.timestamp, user_email := upd.user_email }
        let st2 := { st with
            sessions_collection := st.sessions_collection ++ [doc],
            next_id := st.next_id + 1 }
        (.ok { ok := true, room_id := room_id,
               mongo_id := some (toString doc._id),
               total_messages := messages.length }, st2)

/-- One row of the `GET /conversations` response. -/
structure SessRow where
  room_id : String
  count : Nat
deriving DecidableEq, Repr

/-- The `in_memory` list of `get_conversations`: Live Buffer rooms whose
`STORE_USERS` entry equals the caller, in `STORE` iteration order. -/
def inMemoryRows (st : AppState) (user_email : String) : List SessRow :=
  st.STORE.filterMap (fun p =>
    if dictGet p.1 st.STORE_USERS == some user_email then
      some { room_id := p.1, count := p.2.length }
    else none)

/-- The `mongo_sessions` list of `get_conversations`: the duplicate-keyed
Python filter dict `{"user_email": {"$exists": True}, "user_email":
user_email}` collapses to `{"user_email": user_email}`; results are sorted
by `timestamp` descending (ISO strings, so lexicographic = chronological)
and limited to 50.  `mongoFail` is the `PyMongoError` arm
(`mongo_sessions = []`). -/
def mongoRows (st : AppState) (user_email : String) (mongoFail : Bool) :
    List SessRow :=
  if mongoFail then []
  else
    ((isortLe (fun a b => b.timestamp ≤ a.timestamp)
        (st.sessions_collection.filter (fun s => s.user_email == some user_email))).take 50).map
      (fun s => { room_id := s.session_id, count := s.total_messages })

/-- The `all_sessions` dict of `get_conversations` (src/main.py lines
732-783): `for sess in in_memory + mongo_sessions: all_sessions[sess["room_id"]] = sess`. -/
def conversations_dict (st : AppState) (user_email : String) (mongoFail : Bool) :
    List (String × SessRow) :=
  (inMemoryRows st user_email ++ mongoRows st user_email mongoFail).foldl
    (fun d s => dictInsert s.room_id s d) []

/-- `GET /conversations`: `list(all_sessions.values())`. -/
def get_conversations (st : AppState) (user_email : String) (mongoFail : Bool) :
    List SessRow :=
  (conversations_dict st user_email mongoFail).map (fun p => p.2)

/-- The session document returned by `GET /session/{session_id}` (the Mongo
projection drops `_id`; the in-memory fallback builds the same shape). -/
structure SessionView where
  session_id : String
  timestamp : String
  messages : List Message
  total_messages : Nat
  latest_analysis : Option SentimentAnalysis
  user_email : Option String
deriving DecidableEq, Repr

/-- Projection of a durable document to the response shape. -/
def docToView (d : SessionDoc) : SessionView :=
  { session_id := d.session_id, timestamp := d.timestamp,
    messages := d.messages, total_messages := d.total_messages,
    latest_analysis := d.latest_analysis, user_email := d.user_email }

/-- `get_session` (src/main.py lines 790-823): Mongo first with the
owner-mismatch check (`"user_email" in doc and doc["user_email"] !=
user_email` fails with 403; an absent owner field passes), then the
in-memory fallback projecting the caller as owner, else 404. -/
def get_session (st : AppState) (session_id : String) (user_email : String)
    (now : String) : HResult SessionView :=
  match findSession st session_id with
  | some doc =>
      match doc.user_email with
      | some owner =>
          if owner ≠ user_email then
            .httpError 403 "Access denied: You don\x27t own this session"
          else .ok (docToView doc)
      | none => .ok (docToView doc)
  | none =>
      match dictGet session_id st.STORE with
      | some msgs =>
          .ok { session_id := session_id, timestamp := now, messages := msgs,
                total_messages := msgs.length,
                latest_analysis := dictGet session_id st.ANALYSIS_STORE,
                user_email := some user_email }
      | none => .httpError 404 ("Session not found: " ++ session_id)

/-! ## Helper lemmas about the dict and collection models -/

theorem dictGet_dictInsert {α : Type} (k r : String) (v : α)
    (d : List (String × α)) :
    dictGet r (dictInsert k v d) = if k = r then some v else dictGet r d := by
  induction d with
  | nil => simp [dictInsert, dictGet]
  | cons p rest ih =>
      obtain ⟨k', v'⟩ := p
      simp only [dictInsert, dictGet]
      by_cases h1 : k' = k
      · subst h1
        by_cases h2 : k' = r <;> simp [dictGet, h2]
      · simp only [if_neg h1, dictGet]
        by_cases h2 : k' = r
        · have hk : ¬ k = r := fun hh => h1 (h2.trans hh.symm)
          simp [h2, hk]
        · simp [h2, ih]

theorem dictGet_foldl_insert (rows : List SessRow)
    (d0 : List (String × SessRow)) (r : String) :
    dictGet r (rows.foldl (fun d s => dictInsert s.room_id s d) d0) =
      (rows.reverse.find? (fun s => s.room_id == r)).or (dictGet r d0) := by
  induction rows generalizing d0 with
  | nil => simp
  | cons s rest ih =>
      simp only [List.foldl_cons, List.reverse_cons]
      rw [ih, List.find?_append, Option.or_assoc]
      congr 1
      rw [dictGet_dictInsert]
      cases hbeq : (s.room_id == r) with
      | true => simp [List.find?_singleton, hbeq, eq_of_beq hbeq]
      | false =>
          have : ¬ s.room_id = r := by
            intro hh
            simp [hh] at hbeq
          simp [List.find?_singleton, hbeq, this]

/-! ## C1: merge precedence in the session list -/

/-- C1 (amended): for every authenticated caller, looking up a room id in the
merged `all_sessions` dict of the list-sessions operation yields the caller's
Persistent Store row for that room when one was fetched, and otherwise the
caller's Live Buffer row: on a key collision the Persistent Store entry
takes precedence (the merge loop writes `in_memory` rows first and
`mongo_sessions` rows second, so the later write wins). -/
theorem C1_list_sessions_merge (st : AppState) (u r : String) (mf : Bool) :
    dictGet r (conversations_dict st u mf) =
      ((mongoRows st u mf).reverse.find? (fun s => s.room_id == r)).or
        ((inMemoryRows st u).reverse.find? (fun s => s.room_id == r)) := by
  unfold conversations_dict
  rw [dictGet_foldl_insert, List.reverse_append, List.find?_append]
  simp [dictGet]

def C1_msg1 : Message :=
  { text := "hello", speaker := .user, sent_ts := 1, received_at := "t1", room_id := "r1" }

def C1_msg2 : Message :=
  { text := "hi there", speaker := .assistant, sent_ts := 2, received_at := "t2", room_id := "r1" }

def C1_doc : SessionDoc :=
  { _id := 0, session_id := "r1", messages := [], total_messages := 5,
    latest_analysis := none, timestamp := "2026-01-01T00:00:00+00:00",
    user_email := some "u@x" }

/-- A state in which room `r1` is both live (2 buffered messages, owned by
`u@x` in the Ownership Index) and durably finalized (stale snapshot with
`total_messages = 5`, owned by `u@x`). -/
def C1_state : AppState :=
  { emptyState with
    STORE := [("r1", [C1_msg1, C1_msg2])],
    STORE_USERS := [("r1", "u@x")],
    sessions_collection := [C1_doc] }

/-- C1 counterexample: with room `r1` both live (live count 2) and
persisted (total count 5) for the same owner, the list-sessions operation
returns the Persistent Store projection `count = 5`, not the Live Buffer
projection `count = 2` — the Live Buffer entry does NOT take precedence on
a key collision, refuting the claim as stated. -/
theorem C1_counterexample :
    get_conversations C1_state "u@x" false = [{ room_id := "r1", count := 5 }] ∧
    inMemoryRows C1_state "u@x" = [{ room_id := "r1", count := 2 }] ∧
    { room_id := "r1", count := 2 } ∉ get_conversations C1_state "u@x" false := by
  refine ⟨rfl, rfl, ?_⟩
  decide

/-! ## C2: empty / whitespace-only ingestion text -/

/-- C2 (code-bug evaluation): a strictly empty `text` is rejected by the
pydantic `min_length=1` validation with a genuine 422 before the handler
runs and the state is untouched; but a whitespace-only `text` reaches the
handler, whose own `raise HTTPException(422, "Empty message")` is caught by
the blanket `except Exception` and resurfaces as HTTP 500 with detail
`"422: Empty message"` — not the 422 the claim states.  In both cases the
Live Buffer (`STORE`) is left unchanged. -/
theorem C2_empty_text_behavior (st : AppState) (payload : TranscriptIn)
    (t : String) (g : GroqResult) (mf : Bool) :
    (payload.text = "" →
      process_transcription_endpoint st payload t g mf =
        (.httpError 422 pydanticMinLengthDetail, st)) ∧
    (payload.text ≠ "" → pyStrip payload.text = "" →
      (process_transcription_endpoint st payload t g mf).1 =
        .httpError 500 (httpExceptionText 422 "Empty message") ∧
      ((process_transcription_endpoint st payload t g mf).2).STORE = st.STORE) := by
  constructor
  · intro h
    simp [process_transcription_endpoint, h]
  · intro h1 h2
    have hbody : process_transcription st payload t g mf =
        (.httpError 500 (httpExceptionText 422 "Empty message"),
         if truthy (resolveUser st payload) && !(hasKey payload.room_id st.STORE_USERS) then
           { st with STORE_USERS :=
               dictInsert payload.room_id ((resolveUser st payload).getD "") st.STORE_USERS }
         else st) := by
      simp [process_transcription, h2]
    constructor
    · simp [process_transcription_endpoint, h1, hbody]
    · simp only [process_transcription_endpoint, if_neg h1, hbody]
      split <;> rfl

def C2_payload : TranscriptIn :=
  { text := " ", speaker := .user, timestamp := 0, room_id := "r1", user_email := none }

/-- C2 witness: at the concrete whitespace-only ingestion
`{text: " ", speaker: "user", room_id: "r1"}` the response is HTTP 500 with
detail `"422: Empty message"` and the Live Buffer is unchanged. -/
theorem C2_witness :
    (process_transcription_endpoint emptyState C2_payload "t" .failure false).1 =
      .httpError 500 (httpExceptionText 422 "Empty message") ∧
    ((process_transcription_endpoint emptyState C2_payload "t" .failure false).2).STORE =
      emptyState.STORE :=
  (C2_empty_text_behavior emptyState C2_payload "t" .failure false).2
    (by decide) (by decide)

/-! ## C3: messages fetch with limit 1 on a 3-message Live Buffer -/

/-- C3 (amended): when the Live Buffer for a room holds exactly 3 messages
and `limit = 1`, the fetch skips the Persistent Store supplement (the
buffer already meets the limit) and returns exactly the LAST message in
submission order; that message has the greatest sent-at timestamp only when
the buffer happens to be ordered by sent-at. -/
theorem C3_limit_one_messages (st : AppState) (room : String)
    (a b c : Message) (mf : Bool)
    (h : dictGet room st.STORE = some [a, b, c]) :
    get_messages st room 1 mf = { room_id := room, messages := [c] } ∧
    (a.sent_ts ≤ c.sent_ts → b.sent_ts ≤ c.sent_ts →
      ∀ m ∈ [a, b, c], m.sent_ts ≤ c.sent_ts) := by
  constructor
  · simp [get_messages, h, lastN]
  · intro h1 h2 m hm
    rcases List.mem_cons.mp hm with rfl | hm
    · exact h1
    rcases List.mem_cons.mp hm with rfl | hm
    · exact h2
    rcases List.mem_cons.mp hm with rfl | hm
    · exact le_refl _
    · cases hm

def C3_msgA : Message :=
  { text := "first", speaker := .user, sent_ts := 3, received_at := "t1", room_id := "r" }

def C3_msgB : Message :=
  { text := "second", speaker := .assistant, sent_ts := 1, received_at := "t2", room_id := "r" }

def C3_msgC : Message :=
  { text := "third", speaker := .user, sent_ts := 2, received_at := "t3", room_id := "r" }

/-- A room whose Live Buffer holds 3 messages whose submission order is not
their sent-at order (sent-at 3, 1, 2). -/
def C3_state : AppState :=
  { emptyState with STORE := [("r", [C3_msgA, C3_msgB, C3_msgC])] }

/-- C3 counterexample: on a 3-message buffer appended out of sent-at order,
`limit = 1` returns the last-appended message (sent-at 2), not the message
with the greatest sent-at timestamp (sent-at 3), refuting the claim as
stated. -/
theorem C3_counterexample :
    (get_messages C3_state "r" 1 false).messages = [C3_msgC] ∧
    C3_msgA ∈ ((dictGet "r" C3_state.STORE).getD []) ∧
    C3_msgC.sent_ts < C3_msgA.sent_ts := by
  refine ⟨rfl, ?_, ?_⟩ <;> decide

def C3_wit1 : Message :=
  { text := "w1", speaker := .user, sent_ts := 1, received_at := "t1", room_id := "rw" }

def C3_wit2 : Message :=
  { text := "w2", speaker := .assistant, sent_ts := 2, received_at := "t2", room_id := "rw" }

def C3_wit3 : Message :=
  { text := "w3", speaker := .user, sent_ts := 3, received_at := "t3", room_id := "rw" }

def C3_wit_state : AppState :=
  { emptyState with STORE := [("rw", [C3_wit1, C3_wit2, C3_wit3])] }

/-- C3 witness: on a concrete 3-message buffer, limit 1 returns exactly the
last stored message. -/
theorem C3_witness :
    get_messages C3_wit_state "rw" 1 false = { room_id := "rw", messages := [C3_wit3] } :=
  (C3_limit_one_messages C3_wit_state "rw" C3_wit1 C3_wit2 C3_wit3 false rfl).1

/-! ## C4: session-fetch ownership check -/

/-- C4 (amended): the ownership denial of `GET /session/{id}` is enforced
only through the durable record: when the Persistent Store document exists
and its stored owner is set and differs from the caller the request fails
with ForbiddenError (403), and a durable record with no stored owner is
returned to any authenticated caller.  (When no durable record exists, the
handler falls back to the Live Buffer entry without consulting the
Ownership Index — see the counterexample.) -/
theorem C4_durable_owner_check (st : AppState) (sid caller now : String)
    (doc : SessionDoc) (h : findSession st sid = some doc) :
    (∀ o, doc.user_email = some o → o ≠ caller →
      get_session st sid caller now =
        .httpError 403 "Access denied: You don\x27t own this session") ∧
    (doc.user_email = none → get_session st sid caller now = .ok (docToView doc)) := by
  constructor
  · intro o ho hne
    simp [get_session, h, ho, hne]
  · intro ho
    simp [get_session, h, ho]

def C4_msg : Message :=
  { text := "hello", speaker := .user, sent_ts := 1, received_at := "t", room_id := "r1" }

/-- A state where room `r1` is live-only: the Ownership Index records owner
`u1`, there is no durable record. -/
def C4_state : AppState :=
  { emptyState with STORE := [("r1", [C4_msg])], STORE_USERS := [("r1", "u1")] }

/-- C4 counterexample: room `r1` has recorded owner `u1` (Ownership Index),
yet a fetch by the different authenticated user `u3` succeeds — the handler
never consults the Ownership Index, and with no durable record it serves
the Live Buffer entry to any caller, projecting the caller as owner.  This
refutes the universal first part of the claim. -/
theorem C4_counterexample :
    dictGet "r1" C4_state.STORE_USERS = some "u1" ∧
    get_session C4_state "r1" "u3" "now" =
      .ok { session_id := "r1", timestamp := "now", messages := [C4_msg],
            total_messages := 1, latest_analysis := none, user_email := some "u3" } :=
  ⟨rfl, rfl⟩

def C4_wit_doc : SessionDoc :=
  { _id := 0, session_id := "s1", messages := [], total_messages := 0,
    latest_analysis := none, timestamp := "t", user_email := some "u1" }

def C4_wit_state : AppState :=
  { emptyState with sessions_collection := [C4_wit_doc] }

/-- C4 witness: a durable session owned by `u1` fetched by `u2` is denied
with 403. -/
theorem C4_witness :
    get_session C4_wit_state "s1" "u2" "now" =
      .httpError 403 "Access denied: You don\x27t own this session" :=
  (C4_durable_owner_check C4_wit_state "s1" "u2" "now" C4_wit_doc rfl).1
    "u1" rfl (by decide)

/-! ## C5: first-write-wins ownership -/

/-- The `STORE_USERS` component of the post-state of an ingestion: the only
write is the guarded first-write insert at the top of the handler. -/
theorem process_STORE_USERS (st : AppState) (payload : TranscriptIn)
    (t : String) (g : GroqResult) (mf : Bool) :
    ((process_transcription st payload t g mf).2).STORE_USERS =
      (if truthy (resolveUser st payload) && !(hasKey payload.room_id st.STORE_USERS) then
        dictInsert payload.room_id ((resolveUser st payload).getD "") st.STORE_USERS
      else st.STORE_USERS) := by
  obtain ⟨text, speaker, ts, room, mail⟩ := payload
  simp only [process_transcription]
  cases speaker <;> cases mf <;>
    by_cases he : pyStrip text = "" <;>
      simp [he] <;> split <;> rfl

/-- C5 (amended): the ownership index consulted by reads (`STORE_USERS`) is
first-write-wins across ingestions: once it holds an entry for a room, no
later ingestion — whatever identity it carries — changes that entry.
However, an owner recorded at room-creation time by the token endpoint goes
into the separate `ROOM_TO_USER` map and does not by itself fix the index:
the index is set by the FIRST ingestion that resolves an identity, with the
ingestion's explicit tag taking precedence over the room-creation mapping
(see the counterexample). -/
theorem C5_index_first_write_wins (st : AppState) (payload : TranscriptIn)
    (t : String) (g : GroqResult) (mf : Bool) (room u : String)
    (h : dictGet room st.STORE_USERS = some u) :
    dictGet room ((process_transcription st payload t g mf).2).STORE_USERS = some u := by
  rw [process_STORE_USERS]
  split
  · rename_i hcond
    rw [dictGet_dictInsert]
    by_cases hr : payload.room_id = room
    · exfalso
      rw [Bool.and_eq_true] at hcond
      have hkey : hasKey payload.room_id st.STORE_USERS = false := by
        have := hcond.2
        simpa using this
      rw [hr] at hkey
      simp [hasKey, h] at hkey
    · simp [hr, h]
  · exact h

def C5_token_req : TokenRequest :=
  { room_name := "r", participant_name := "p", user_email := some "u1" }

/-- State after `POST /get-token` for room `r` with user `u1`: the
room-creation mapping records `u1` as `r`'s owner. -/
def C5_state1 : AppState := get_token emptyState C5_token_req

def C5_payload : TranscriptIn :=
  { text := "hi", speaker := .user, timestamp := 1, room_id := "r", user_email := some "u2" }

/-- State after a later ingestion for room `r` explicitly tagged with the
different user `u2`. -/
def C5_state2 : AppState := (process_transcription C5_state1 C5_payload "t" .failure false).2

/-- C5 counterexample: room `r`'s owner is first recorded at room-creation
time via the token endpoint (`ROOM_TO_USER["r"] = "u1"`); a later ingestion
tagged with the different identity `u2` then records `u2` — not `u1` — in
the ownership index consulted by reads (`STORE_USERS`), and the session
list attributes `r` to `u2`.  The recorded owner therefore did change after
a later, differently-tagged ingestion, refuting the claim as stated. -/
theorem C5_counterexample :
    dictGet "r" C5_state1.ROOM_TO_USER = some "u1" ∧
    dictGet "r" C5_state1.STORE_USERS = none ∧
    dictGet "r" C5_state2.STORE_USERS = some "u2" ∧
    inMemoryRows C5_state2 "u2" = [{ room_id := "r", count := 1 }] :=
  ⟨rfl, rfl, rfl, rfl⟩

def C5_wit_state : AppState := { emptyState with STORE_USERS := [("r", "u0")] }

def C5_wit_payload : TranscriptIn :=
  { text := "hello", speaker := .user, timestamp := 2, room_id := "r", user_email := some "u2" }

/-- C5 witness: an existing index entry (`r` owned by `u0`) survives a later
ingestion tagged with a different identity. -/
theorem C5_witness :
    dictGet "r" ((process_transcription C5_wit_state C5_wit_payload "t" .failure false).2).STORE_USERS =
      some "u0" :=
  C5_index_first_write_wins C5_wit_state C5_wit_payload "t" .failure false "r" "u0" rfl

/-! ## C6: idempotent finalization upsert -/

theorem length_updateFirst (p : SessionDoc → Bool) (f : SessionDoc → SessionDoc)
    (l : List SessionDoc) : (updateFirst p f l).length = l.length := by
  induction l with
  | nil => rfl
  | cons d ds ih =>
      simp only [updateFirst]
      split <;> simp [ih]

theorem find?_updateFirst (l : List SessionDoc) (room : String)
    (f : SessionDoc → SessionDoc) (hf : ∀ d, (f d).session_id = d.session_id)
    (e : SessionDoc) (h : l.find? (fun d => d.session_id == room) = some e) :
    (updateFirst (fun d => d.session_id == room) f l).find?
      (fun d => d.session_id == room) = some (f e) := by
  induction l with
  | nil => simp at h
  | cons d ds ih =>
      simp only [updateFirst]
      by_cases hd : d.session_id = room
      · have hb : (d.session_id == room) = true := by simp [hd]
        simp only [List.find?_cons, hb] at h
        cases h
        rw [if_pos hb]
        simp only [List.find?_cons, hf, hb]
      · have hb : (d.session_id == room) = false := by simp [hd]
        simp only [List.find?_cons, hb] at h
        rw [if_neg (by simp [hb])]
        simp only [List.find?_cons, hb]
        exact ih h

theorem find?_append_fresh (l : List SessionDoc) (d : SessionDoc) (room : String)
    (h : l.find? (fun x => x.session_id == room) = none) (hd : d.session_id = room) :
    (l ++ [d]).find? (fun x => x.session_id == room) = some d := by
  rw [List.find?_append, h]
  simp [hd]

/-- The durable identifier an upsert of `room` in state `st` returns: the
`_id` of the existing document when one exists, else the freshly issued id. -/
def upsertId (st : AppState) (room : String) : Nat :=
  match findSession st room with
  | some e => e._id
  | none => st.next_id

/-- The `session_update` dict that `save_session` builds for `room` in
state `st`. -/
def sessionUpd (st : AppState) (room : String) (u : Option String)
    (c : ConvResult) (t : String) : SessionUpdateData :=
  { messages := (dictGet room st.STORE).getD [],
    total_messages := ((dictGet room st.STORE).getD []).length,
    latest_analysis := analyze_full_conversation ((dictGet room st.STORE).getD []) c,
    timestamp := t,
    user_email := if truthy u then u else none }

/-- The fresh `session_doc` inserted by `save_session` when no durable
record exists yet. -/
def freshDoc (st : AppState) (room : String) (u : Option String)
    (c : ConvResult) (t : String) : SessionDoc :=
  { _id := st.next_id, session_id := room,
    messages := (dictGet room st.STORE).getD [],
    total_messages := ((dictGet room st.STORE).getD []).length,
    latest_analysis := some (analyze_full_conversation ((dictGet room st.STORE).getD []) c),
    timestamp := t,
    user_email := if truthy u then u else none }

/-- One finalization call when the Live Buffer holds the room and a durable
record exists: the existing `_id` is returned and the document is updated
in place. -/
theorem save_session_found (st : AppState) (room : String) (u : Option String)
    (c : ConvResult) (t : String) (e : SessionDoc)
    (hkey : hasKey room st.STORE = true) (hfind : findSession st room = some e) :
    (save_session st room u c t).1 =
      .ok { ok := true, room_id := room, mongo_id := some (toString e._id),
            total_messages := ((dictGet room st.STORE).getD []).length } ∧
    ((save_session st room u c t).2).sessions_collection =
      updateFirst (fun d => d.session_id == room) (applySet (sessionUpd st room u c t))
        st.sessions_collection ∧
    ((save_session st room u c t).2).STORE = st.STORE := by
  refine ⟨?_, ?_, ?_⟩ <;> simp [save_session, hkey, hfind, sessionUpd]

/-- One finalization call when the Live Buffer holds the room and no
durable record exists: a fresh document is appended and its id returned. -/
theorem save_session_fresh (st : AppState) (room : String) (u : Option String)
    (c : ConvResult) (t : String)
    (hkey : hasKey room st.STORE = true) (hfind : findSession st room = none) :
    (save_session st room u c t).1 =
      .ok { ok := true, room_id := room, mongo_id := some (toString st.next_id),
            total_messages := ((dictGet room st.STORE).getD []).length } ∧
    ((save_session st room u c t).2).sessions_collection =
      st.sessions_collection ++ [freshDoc st room u c t] ∧
    ((save_session st room u c t).2).STORE = st.STORE := by
  refine ⟨?_, ?_, ?_⟩ <;> simp [save_session, hkey, hfind, freshDoc]

/-- C6: finalizing the same room id twice is an idempotent upsert.  With a
Live Buffer entry present, each call returns `total_messages` equal to the
buffer's length at that call's time, both calls return the same durable
identifier, the second call leaves the number of durable documents
unchanged (no duplicate insert), and the stored document's count matches
the buffer; with no Live Buffer entry, an already-finalized durable session
is returned unchanged (state untouched), and if neither exists the call
fails with NotFoundError (404). -/
theorem C6_save_idempotent_upsert (st : AppState) (room : String)
    (u1 u2 : Option String) (c1 c2 : ConvResult) (t1 t2 : String) :
    (hasKey room st.STORE = true →
      (save_session st room u1 c1 t1).1 =
        .ok { ok := true, room_id := room,
              mongo_id := some (toString (upsertId st room)),
              total_messages := ((dictGet room st.STORE).getD []).length } ∧
      (save_session (save_session st room u1 c1 t1).2 room u2 c2 t2).1 =
        .ok { ok := true, room_id := room,
              mongo_id := some (toString (upsertId st room)),
              total_messages :=
                ((dictGet room ((save_session st room u1 c1 t1).2).STORE).getD []).length } ∧
      ((save_session (save_session st room u1 c1 t1).2 room u2 c2 t2).2).sessions_collection.length =
        ((save_session st room u1 c1 t1).2).sessions_collection.length ∧
      (∃ d, findSession ((save_session st room u1 c1 t1).2) room = some d ∧
        d.total_messages = ((dictGet room st.STORE).getD []).length)) ∧
    (hasKey room st.STORE = false →
      (∀ e, findSession st room = some e →
        save_session st room u1 c1 t1 =
          (.ok { ok := true, room_id := room, mongo_id := some (toString e._id),
                 total_messages := e.total_messages }, st)) ∧
      (findSession st room = none →
        save_session st room u1 c1 t1 =
          (.httpError 404 "Room not found in memory or database", st))) := by
  constructor
  · intro hkey
    cases hfind : findSession st room with
    | some e =>
        obtain ⟨h1a, h1b, h1c⟩ := save_session_found st room u1 c1 t1 e hkey hfind
        have hid : upsertId st room = e._id := by
          simp [upsertId, hfind]
        have hfind1 : findSession ((save_session st room u1 c1 t1).2) room =
            some (applySet (sessionUpd st room u1 c1 t1) e) := by
          simp only [findSession, h1b]
          exact find?_updateFirst st.sessions_collection room
            (applySet (sessionUpd st room u1 c1 t1)) (fun d => rfl) e hfind
        have hkey1 : hasKey room ((save_session st room u1 c1 t1).2).STORE = true := by
          rw [h1c]; exact hkey
        obtain ⟨h2a, h2b, -⟩ := save_session_found ((save_session st room u1 c1 t1).2)
          room u2 c2 t2 (applySet (sessionUpd st room u1 c1 t1) e) hkey1 hfind1
        refine ⟨?_, ?_, ?_, ?_⟩
        · rw [hid]; exact h1a
        · rw [hid]; exact h2a
        · rw [h2b]
          exact length_updateFirst _ _ _
        · exact ⟨_, hfind1, by simp [applySet, sessionUpd]⟩
    | none =>
        obtain ⟨h1a, h1b, h1c⟩ := save_session_fresh st room u1 c1 t1 hkey hfind
        have hid : upsertId st room = st.next_id := by
          simp [upsertId, hfind]
        have hfind1 : findSession ((save_session st room u1 c1 t1).2) room =
            some (freshDoc st room u1 c1 t1) := by
          simp only [findSession, h1b]
          exact find?_append_fresh st.sessions_collection _ room hfind rfl
        have hkey1 : hasKey room ((save_session st room u1 c1 t1).2).STORE = true := by
          rw [h1c]; exact hkey
        obtain ⟨h2a, h2b, -⟩ := save_session_found ((save_session st room u1 c1 t1).2)
          room u2 c2 t2 (freshDoc st room u1 c1 t1) hkey1 hfind1
        refine ⟨?_, ?_, ?_, ?_⟩
        · rw [hid]; exact h1a
        · rw [hid]; exact h2a
        · rw [h2b]
          exact length_updateFirst _ _ _
        · exact ⟨_, hfind1, by simp [freshDoc]⟩
  · intro hkey
    constructor
    · intro e hfind
      simp [save_session, hkey, hfind]
    · intro hfind
      simp [save_session, hkey, hfind]

def C6_m1 : Message :=
  { text := "x1", speaker := .user, sent_ts := 1, received_at := "t1", room_id := "r" }

def C6_m2 : Message :=
  { text := "x2", speaker := .assistant, sent_ts := 2, received_at := "t2", room_id := "r" }

def C6_wit_state : AppState := { emptyState with STORE := [("r", [C6_m1, C6_m2])] }

/-- C6 witness: finalizing a concrete 2-message room twice returns
`mongo_id = "0"` and `total_messages = 2` both times, and the second call
leaves the number of durable documents unchanged. -/
theorem C6_witness :
    (save_session C6_wit_state "r" none .callFailure "t1").1 =
      .ok { ok := true, room_id := "r", mongo_id := some "0", total_messages := 2 } ∧
    (save_session (save_session C6_wit_state "r" none .callFailure "t1").2 "r" none .callFailure "t2").1 =
      .ok { ok := true, room_id := "r", mongo_id := some "0", total_messages := 2 } ∧
    ((save_session (save_session C6_wit_state "r" none .callFailure "t1").2 "r" none .callFailure "t2").2).sessions_collection.length =
      ((save_session C6_wit_state "r" none .callFailure "t1").2).sessions_collection.length := by
  obtain ⟨ha, hb, hc, -⟩ :=
    (C6_save_idempotent_upsert C6_wit_state "r" none none .callFailure .callFailure "t1" "t2").1 rfl
  exact ⟨ha, hb, hc⟩

/-! ## C7: whole-conversation analysis bounds -/

/-- C7 (amended): on the empty conversation a fixed neutral placeholder is
returned whatever the model outcome is (the model is never consulted); on
every non-empty conversation and every outcome (success, JSON-parse
failure, call failure) the confidence is at least 1/2 and the number of key
points is between 1 and 7; and on the success path the key points are the
concatenation key_points ++ customer_interests ++ customer_concerns capped
at the first 7 entries WHEN that concatenation is non-empty (when it is
empty the code substitutes a list derived from the first 3 customer
messages, or a fixed placeholder — see the counterexample). -/
theorem C7_full_conversation_bounds (messages : List Message) (res : ConvResult) :
    (messages = [] →
      analyze_full_conversation messages res =
        { sentiment := "neutral", confidence := 1/2,
          key_points := ["No conversation data"],
          recommendation_to_salesperson := "No messages to analyze." }) ∧
    (messages ≠ [] →
      (1/2 : ℚ) ≤ (analyze_full_conversation messages res).confidence ∧
      1 ≤ (analyze_full_conversation messages res).key_points.length ∧
      (analyze_full_conversation messages res).key_points.length ≤ 7 ∧
      (∀ p, res = .ok p → concatKeyPoints p ≠ [] →
        (analyze_full_conversation messages res).key_points = (concatKeyPoints p).take 7)) := by
  constructor
  · intro h
    subst h
    simp [analyze_full_conversation]
  · intro h
    have hne : messages.isEmpty = false := by
      cases messages with
      | nil => exact absurd rfl h
      | cons a l => rfl
    cases res with
    | callFailure =>
        refine ⟨?_, ?_, ?_, ?_⟩
        · simp [analyze_full_conversation, hne]
        · simp [analyze_full_conversation, hne]
        · simp [analyze_full_conversation, hne]
        · intro p hp
          exact ConvResult.noConfusion hp
    | jsonFailure =>
        cases hum : messages.filter (fun m => m.speaker == .user) with
        | nil =>
            refine ⟨?_, ?_, ?_, ?_⟩
            · simp [analyze_full_conversation, hne]
            · simp [analyze_full_conversation, hne, hum]
            · simp [analyze_full_conversation, hne, hum]
            · intro p hp
              exact ConvResult.noConfusion hp
        | cons x xs =>
            refine ⟨?_, ?_, ?_, ?_⟩
            · simp [analyze_full_conversation, hne]
            · simp [analyze_full_conversation, hne, hum]
            · simp [analyze_full_conversation, hne, hum, List.length_take]
            · intro p hp
              exact ConvResult.noConfusion hp
    | ok p =>
        by_cases hkp : concatKeyPoints p = []
        · cases hum : messages.filter (fun m => m.speaker == .user) with
          | nil =>
              refine ⟨?_, ?_, ?_, ?_⟩
              · simp only [analyze_full_conversation, hne]
                exact le_max_right _ _
              · simp [analyze_full_conversation, hne, hkp, hum]
              · simp [analyze_full_conversation, hne, hkp, hum]
              · intro q hq hcc
                cases hq
                exact absurd hkp hcc
          | cons x xs =>
              refine ⟨?_, ?_, ?_, ?_⟩
              · simp only [analyze_full_conversation, hne]
                exact le_max_right _ _
              · simp [analyze_full_conversation, hne, hkp, hum,
                  List.length_take, List.length_map]
              · simp [analyze_full_conversation, hne, hkp, hum,
                  List.length_take, List.length_map]
              · intro q hq hcc
                cases hq
                exact absurd hkp hcc
        · have hl : 0 < (concatKeyPoints p).length := List.length_pos.mpr hkp
          have hkpb : (concatKeyPoints p).isEmpty = false := by
            cases hcc : concatKeyPoints p with
            | nil => exact absurd hcc hkp
            | cons a l => rfl
          refine ⟨?_, ?_, ?_, ?_⟩
          · simp only [analyze_full_conversation, hne]
            exact le_max_right _ _
          · simp [analyze_full_conversation, hne, hkpb, List.length_take]
            omega
          · simp [analyze_full_conversation, hne, hkpb, List.length_take]
          · intro q hq hcc
            cases hq
            simp [analyze_full_conversation, hne, hkpb]

def C7_msg : Message :=
  { text := "hello", speaker := .user, sent_ts := 1, received_at := "t", room_id := "r" }

/-- A well-formed model reply whose three key-point lists are all empty. -/
def C7_parsed : ConvParsed :=
  { sentiment := some "positive", confidence := some (9/10),
    key_points := some [], customer_interests := some [],
    customer_concerns := some [],
    recommendation_to_salesperson := some "Close the deal" }

/-- C7 counterexample: on a successful model call whose key_points,
customer_interests and customer_concerns are all empty, the result's key
points are NOT the (empty) concatenation capped at 7 — the code substitutes
a list derived from the customer messages — refuting the success-path
clause of the claim as stated. -/
theorem C7_counterexample :
    concatKeyPoints C7_parsed = [] ∧
    (analyze_full_conversation [C7_msg] (.ok C7_parsed)).key_points =
      ["Customer message: hello"] ∧
    (analyze_full_conversation [C7_msg] (.ok C7_parsed)).key_points ≠
      (concatKeyPoints C7_parsed).take 7 := by
  refine ⟨rfl, rfl, ?_⟩
  decide

/-- C7 witness: on a concrete one-customer-message conversation with a
JSON-parse failure, the bounds hold (confidence at least 1/2, between 1 and
7 key points). -/
theorem C7_witness :
    (1/2 : ℚ) ≤ (analyze_full_conversation [C7_msg] .jsonFailure).confidence ∧
    1 ≤ (analyze_full_conversation [C7_msg] .jsonFailure).key_points.length ∧
    (analyze_full_conversation [C7_msg] .jsonFailure).key_points.length ≤ 7 := by
  obtain ⟨h1, h2, h3, -⟩ :=
    (C7_full_conversation_bounds [C7_msg] .jsonFailure).2 (List.cons_ne_nil _ _)
  exact ⟨h1, h2, h3⟩

/-! ## C8: per-utterance analysis fallback on customer turns -/

/-- The fixed fallback analysis of `analyze_with_groq`
(neutral, confidence 0, no key points, generic recommendation). -/
def groqFallback : SentimentAnalysis :=
  { sentiment := "neutral", confidence := 0, key_points := [],
    recommendation_to_salesperson := "Unable to analyze." }

/-- C8: for every customer-speaker ingestion with valid text, the request
succeeds whatever the LLM outcome is, the response always carries an
analysis (structurally present for a customer turn), and on any LLM
failure that analysis is the fixed fallback — the failure is never
propagated to the caller. -/
theorem C8_customer_turn_fallback (st : AppState) (payload : TranscriptIn)
    (t : String) (g : GroqResult) (mf : Bool)
    (hs : payload.speaker = .user) (ht : pyStrip payload.text ≠ "") :
    analyze_with_groq .failure = groqFallback ∧
    ∃ resp, (process_transcription st payload t g mf).1 = .ok resp ∧
      resp.ok = true ∧ resp.analysis = some (analyze_with_groq g) ∧
      (g = .failure → resp.analysis = some groqFallback) := by
  refine ⟨rfl, ?_⟩
  obtain ⟨text, speaker, ts, room, mail⟩ := payload
  simp only at hs ht
  subst hs
  simp only [process_transcription, if_neg ht]
  exact ⟨_, rfl, rfl, rfl, fun hg => by subst hg; rfl⟩

def C8_payload : TranscriptIn :=
  { text := "I love this course", speaker := .user, timestamp := 1,
    room_id := "r1", user_email := none }

/-- C8 witness: a concrete customer ingestion with a failing LLM call still
succeeds and returns the fixed fallback analysis. -/
theorem C8_witness :
    ∃ resp, (process_transcription emptyState C8_payload "t" .failure false).1 = .ok resp ∧
      resp.ok = true ∧ resp.analysis = some (analyze_with_groq .failure) ∧
      (GroqResult.failure = .failure → resp.analysis = some groqFallback) :=
  (C8_customer_turn_fallback emptyState C8_payload "t" .failure false rfl
    (by decide)).2

/-! ## C9: ownership recorded before text validation -/

/-- C9: an ingestion whose text is whitespace-only (non-empty, so it passes
the pydantic gate) but which resolves a user identity for a room with no
recorded owner still records that user in the Ownership Index, even though
the request itself fails (as HTTP 500 carrying the swallowed 422, see C2)
and the Live Buffer is untouched — the owner assignment happens before the
text validation. -/
theorem C9_owner_recorded_before_validation (st : AppState)
    (payload : TranscriptIn) (t : String) (g : GroqResult) (mf : Bool)
    (u : String) (hres : resolveUser st payload = some u) (hu : u ≠ "")
    (hkey : hasKey payload.room_id st.STORE_USERS = false)
    (htext : pyStrip payload.text = "") :
    (process_transcription st payload t g mf).1 =
      .httpError 500 (httpExceptionText 422 "Empty message") ∧
    dictGet payload.room_id ((process_transcription st payload t g mf).2).STORE_USERS =
      some u ∧
    ((process_transcription st payload t g mf).2).STORE = st.STORE := by
  have hcond : (truthy (resolveUser st payload) &&
      !(hasKey payload.room_id st.STORE_USERS)) = true := by
    rw [hres, hkey]
    simp [truthy, hu]
  refine ⟨?_, ?_, ?_⟩ <;>
    simp [process_transcription, htext, hcond, hres, hkey, hu, truthy,
      dictGet_dictInsert]

def C9_payload : TranscriptIn :=
  { text := " ", speaker := .user, timestamp := 0, room_id := "r",
    user_email := some "u9" }

/-- C9 witness: the concrete whitespace-only ingestion tagged `u9` for the
unowned room `r` fails with HTTP 500 yet records `u9` as `r`'s owner. -/
theorem C9_witness :
    (process_transcription emptyState C9_payload "t" .failure false).1 =
      .httpError 500 (httpExceptionText 422 "Empty message") ∧
    dictGet "r" ((process_transcription emptyState C9_payload "t" .failure false).2).STORE_USERS =
      some "u9" := by
  obtain ⟨h1, h2, -⟩ := C9_owner_recorded_before_validation emptyState C9_payload
    "t" .failure false "u9" rfl (by decide) rfl (by decide)
  exact ⟨h1, h2⟩

/-! ## C10: re-finalization preserves the stored owner -/

/-- C10: re-finalizing a session without supplying a user identity replaces
the durable record's messages, total_messages, latest_analysis and
timestamp with the then-current values but leaves the stored owner (and the
durable identifier) unchanged; when an identity IS supplied (and truthy) the
owner field is written to it.  The update never clears an existing owner. -/
theorem C10_refinalize_owner_frame (st : AppState) (room : String)
    (c : ConvResult) (t : String) (e : SessionDoc)
    (hkey : hasKey room st.STORE = true) (hfind : findSession st room = some e) :
    findSession ((save_session st room none c t).2) room =
      some { e with
        messages := (dictGet room st.STORE).getD [],
        total_messages := ((dictGet room st.STORE).getD []).length,
        latest_analysis := some (analyze_full_conversation ((dictGet room st.STORE).getD []) c),
        timestamp := t } ∧
    (∀ u : String, u ≠ "" →
      findSession ((save_session st room (some u) c t).2) room =
        some { e with
          messages := (dictGet room st.STORE).getD [],
          total_messages := ((dictGet room st.STORE).getD []).length,
          latest_analysis := some (analyze_full_conversation ((dictGet room st.STORE).getD []) c),
          timestamp := t,
          user_email := some u }) := by
  constructor
  · have h1b := (save_session_found st room none c t e hkey hfind).2.1
    have hf := find?_updateFirst st.sessions_collection room
      (applySet (sessionUpd st room none c t)) (fun d => rfl) e hfind
    simp only [findSession, h1b]
    rw [hf]
    simp [applySet, sessionUpd, truthy]
  · intro u hu
    have h1b := (save_session_found st room (some u) c t e hkey hfind).2.1
    have hf := find?_updateFirst st.sessions_collection room
      (applySet (sessionUpd st room (some u) c t)) (fun d => rfl) e hfind
    simp only [findSession, h1b]
    rw [hf]
    simp [applySet, sessionUpd, truthy, hu]

def C10_doc : SessionDoc :=
  { _id := 7, session_id := "r", messages := [], total_messages := 0,
    latest_analysis := none, timestamp := "t0", user_email := some "owner@x" }

def C10_msg : Message :=
  { text := "m", speaker := .user, sent_ts := 1, received_at := "t", room_id := "r" }

def C10_state : AppState :=
  { emptyState with STORE := [("r", [C10_msg])], sessions_collection := [C10_doc] }

/-- C10 witness: re-finalizing the concrete room `r` without a user
identity replaces messages/count/analysis/timestamp but keeps `_id = 7` and
the stored owner `owner@x`. -/
theorem C10_witness :
    findSession ((save_session C10_state "r" none .callFailure "t1").2) "r" =
      some { _id := 7, session_id := "r", messages := [C10_msg], total_messages := 1,
             latest_analysis := some (analyze_full_conversation [C10_msg] .callFailure),
             timestamp := "t1", user_email := some "owner@x" } :=
  (C10_refinalize_owner_frame C10_state "r" .callFailure "t1" C10_doc rfl rfl).1
